import Mathlib

/-!
# Arcan video driver of SDL2: event pump and mouse cursor

A shallow embedding of `src/video/arcan/SDL_arcanevent.c` and
`src/video/arcan/SDL_arcanmouse.c`.

* Driver state (`Arcan_SDL_Meta`, `struct arcan_shmif_cont`) is passed explicitly.
* Every call that leaves the driver is recorded: calls into the SDL event sink
  (`SDL_Send*`) in `Env.sink`, calls into the shmif transport and libc in `Env.calls`.
* What the transport answers (the events a segment hands to `arcan_shmif_poll`, the
  result of `arcan_shmif_resize`, `arcan_shmif_acquire`, `arcan_shmif_acquireloop`) is
  data of the state, so theorems quantify over every behaviour of the display server.
* Pure helpers whose body is not part of the two files (`arcan_shmif_mousestate`,
  `arcan_shmif_descrevent`, the scancode table, `SDL_ConvertPixels`, header constants)
  are fields of `Platform`, and theorems quantify over them as well.
* `SDL_strdup`, `SDL_asprintf` and the clipboard buffers are modelled on `String`;
  their allocations are taken to succeed.
* A function that can fail to return (a read through a null pointer, a spin that never ends)
  has an `Option` result, `none` being that failure.
-/

namespace Arcan

/-! ## Wire events (`arcan_event`) -/

/-- Top-level tag `ev->category`: `EVENT_IO`, `EVENT_TARGET`, or any other value. -/
inductive EventCategory
  | input
  | target
  | other
  deriving DecidableEq, Repr

/-- Device tag `ev->io.devkind`: `EVENT_IDEVKIND_MOUSE`, `_KEYBOARD`, `_TOUCHDISP`, or any
other value. -/
inductive DevKind
  | MOUSE
  | KEYBOARD
  | TOUCHDISP
  | other
  deriving DecidableEq, Repr

/-- Payload tag `ev->io.datatype`: `EVENT_IDATATYPE_ANALOG`, `_DIGITAL`, or any other value. -/
inductive DataType
  | ANALOG
  | DIGITAL
  | other
  deriving DecidableEq, Repr

/-- Sub-identifier `ev->io.subid`, classified by the five `case` labels of the switch in
`process_mouse` (pairwise distinct, being labels of one switch); `other n` is any value that is
none of the five. -/
inductive SubId
  | MBTN_LEFT_IND
  | MBTN_RIGHT_IND
  | MBTN_MIDDLE_IND
  | MBTN_WHEEL_UP_IND
  | MBTN_WHEEL_DOWN_IND
  | other (n : Nat)
  deriving DecidableEq, Repr

/-- Command tag `ev.tgt.kind` (`TARGET_COMMAND_*`), classified by the `case` labels of
`process_target` plus `MESSAGE`, which `Arcan_PumpEvents` tests; `other` is any other value. -/
inductive TargetCommand
  | EXIT
  | FONTHINT
  | ATTENUATE
  | DEVICE_NODE
  | RESET
  | BCHUNK_IN
  | STEPFRAME
  | DISPLAYHINT
  | OUTPUTHINT
  | NEWSEGMENT
  | MESSAGE
  | other
  deriving DecidableEq, Repr

/-- The fields of `arcan_ioevent` the driver reads. `digital_active` is
`input.digital.active`, `translated_active`, `utf8` and `scancode` are the members of
`input.translated`; `utf8` holds the bytes before the terminating NUL. `axisval` stands for the
analog samples, which only `arcan_shmif_mousestate` reads. -/
structure arcan_ioevent where
  devkind : DevKind := DevKind.other
  datatype : DataType := DataType.other
  devid : Int := 0
  subid : SubId := SubId.other 0
  digital_active : Bool := false
  translated_active : Bool := false
  utf8 : String := ""
  scancode : Nat := 0
  axisval : List Int := []
  deriving DecidableEq, Repr

/-- The fields of `arcan_tgtevent` the driver reads: `kind`, the integer slots `ioevs[i].iv`
and the text `message` (the bytes before the terminating NUL). -/
structure arcan_tgtevent where
  kind : TargetCommand := TargetCommand.other
  ioevs : List Int := []
  message : String := ""
  deriving DecidableEq, Repr

/-- Slot `ev.ioevs[i].iv`. -/
def arcan_tgtevent.iv (ev : arcan_tgtevent) (i : Nat) : Int :=
  ev.ioevs.getD i 0

/-- An `arcan_event`: the category tag with both views of the payload. -/
structure arcan_event where
  category : EventCategory := EventCategory.other
  inp : arcan_ioevent := {}
  tgt : arcan_tgtevent := {}
  deriving DecidableEq, Repr

/-! ## Segments, the event sink and the transport -/

/-- The vsync-ready flag `addr->vready` as `synchCursor` observes it: clear, set and cleared by
the server after `n` further reads, or set for good (a server that never consumes the frame). -/
inductive VReady
  | clear
  | setFor (n : Nat)
  | hung
  deriving DecidableEq, Repr

/-- The fields of `struct arcan_shmif_cont` the driver uses. `addr` and `vidp` record whether
the pointer is non-null; `mem` is the pixel array behind `vidp` (and `vidb`), `pitch` the row
length in pixels (`stride` is the same length in bytes); `inq` is the sequence of events the
transport hands to successive `arcan_shmif_poll` calls on this segment. -/
structure Segment where
  addr : Bool := false
  vidp : Bool := false
  w : Int := 0
  h : Int := 0
  pitch : Nat := 0
  vready : VReady := VReady.clear
  mem : List Nat := []
  inq : List arcan_event := []
  deriving DecidableEq, Repr

/-- Which segment a transport call is made on. -/
inductive SegName
  | prim
  | mcont
  | cursor
  | clip_in
  | clip_out
  deriving DecidableEq, Repr

/-- Segment kinds passed to the transport (`SEGID_*`). -/
inductive SegKind
  | SEGID_CURSOR
  | SEGID_CLIPBOARD
  | SEGID_CLIPBOARD_PASTE
  deriving DecidableEq, Repr

/-- Button identifiers passed to `SDL_SendMouseButton`. -/
inductive Button
  | SDL_BUTTON_LEFT
  | SDL_BUTTON_RIGHT
  | SDL_BUTTON_MIDDLE
  deriving DecidableEq, Repr

/-- Window event identifiers passed to `SDL_SendWindowEvent`. -/
inductive WindowEventID
  | SDL_WINDOWEVENT_CLOSE
  | SDL_WINDOWEVENT_RESIZED
  deriving DecidableEq, Repr

/-- One call into the SDL event sink, with its arguments (the window argument is always
`meta->main` and is left out). `state` is `true` for `SDL_PRESSED`. The wheel direction is always
`SDL_MOUSEWHEEL_NORMAL`. -/
inductive SinkEvent
  | MouseMotion (mouseID : Int) (relative : Int) (x y : Int)
  | MouseButton (mouseID : Int) (state : Bool) (button : Button)
  | MouseWheel (mouseID : Int) (x y : Int)
  | KeyboardText (text : String)
  | KeyboardKey (state : Bool) (scancode : Nat)
  | WindowEvent (windowevent : WindowEventID) (data1 data2 : Int)
  deriving DecidableEq, Repr

/-- An event the driver sends to the server with `arcan_shmif_enqueue`. -/
inductive OutEvent
  | SEGREQ (width height : Int) (kind : SegKind) (id : Nat)
  | CURSORHINT (message : String)
  deriving DecidableEq, Repr

/-- One call into the shmif transport, the SDL mutex or libc, with its arguments. -/
inductive Call
  | poll (seg : SegName)
  | resize (seg : SegName) (w h : Int)
  | make_current (seg : SegName)
  | acquire (owner : SegName) (kind : SegKind)
  | acquireloop (seg : SegName)
  | enqueue (seg : SegName) (ev : OutEvent)
  | signal (seg : SegName)
  | close (fd : Int)
  | LockMutex
  | UnlockMutex
  deriving DecidableEq, Repr

/-- What one `arcan_shmif_resize` call answers: whether it succeeded and, if so, the row pitch
and the pixel array of the resized segment. -/
structure ResizeAns where
  ok : Bool := false
  pitch : Nat := 0
  mem : List Nat := []
  deriving DecidableEq, Repr

/-- What one `arcan_shmif_acquireloop` call answers: its result and what it stores through its
two out-parameters `&wd->pqueue` and `&wd->pqueue_sz`. -/
structure AcquireLoopAns where
  ok : Bool := false
  pqueue : Option (List arcan_event) := none
  pqueue_sz : Int := 0
  deriving DecidableEq, Repr

/-- Everything outside the driver. `sink` and `calls` grow at the end. `dispatched` is a ghost
record of the events `eventDispatch` was called on, in call order. The answer lists are
consumed from the front, one element per call; an exhausted list answers failure.
`signalAns` says, for each `arcan_shmif_signal`, how the vsync-ready flag it sets will look to
the driver afterwards (exhausted: set for good). -/
structure Env where
  sink : List SinkEvent := []
  calls : List Call := []
  dispatched : List arcan_event := []
  resizeAns : List ResizeAns := []
  acquireAns : List Segment := []
  acquireloopAns : List AcquireLoopAns := []
  signalAns : List VReady := []
  deriving DecidableEq, Repr

/-- Record a call into the event sink. -/
def Env.send (env : Env) (e : SinkEvent) : Env :=
  { env with sink := env.sink ++ [e] }

/-- Record a call into the transport. -/
def Env.call (env : Env) (c : Call) : Env :=
  { env with calls := env.calls ++ [c] }

/-- Pure helpers and constants the two files use but do not define. -/
structure Platform where
  /-- The call `arcan_shmif_mousestate(prim, meta->mstate, ev, &meta->mx, &meta->my)`: from the
  segment, the tracker state, the event and the old coordinates to the new tracker state and
  coordinates. -/
  mousestate : Segment → List Nat → arcan_event → Int → Int → List Nat × Int × Int
  /-- The predicate `arcan_shmif_descrevent`. -/
  descrevent : arcan_event → Bool
  /-- Scancode translation in `process_keyb`: `linux_scancode_table[·]` under `__LINUX__`, the
  identity otherwise. -/
  scancode : Nat → Nat
  /-- The value of `SEGID_CLIPBOARD_PASTE`, which `process_target` compares a slot with. -/
  SEGID_CLIPBOARD_PASTE : Int
  /-- The call `SDL_ConvertPixels` of `allocCursor`: from width, height, source pixels and
  target format to the converted pixels, or `none` when it returns non-zero. -/
  ConvertPixels : Nat → Nat → List Nat → Nat → Option (List Nat)
  /-- Number of bytes of `ext.message.data`. -/
  message_sz : Nat

/-! ## Driver state -/

/-- An `SDL_Window`; `resizable` is `flags & SDL_WINDOW_RESIZABLE`. -/
structure SDL_Window where
  resizable : Bool := false
  deriving DecidableEq, Repr

/-- The fields of `Arcan_SDL_Meta` the two files use. `main`, `pqueue`, `clip_tmp` and
`clip_last` are pointers, `none` being `NULL`. -/
structure Arcan_SDL_Meta where
  main : Option SDL_Window := none
  pqueue : Option (List arcan_event) := none
  pqueue_sz : Int := 0
  mstate : List Nat := []
  mx : Int := 0
  my : Int := 0
  mrel : Int := 0
  dirty_mouse : Bool := false
  disp_w : Int := 0
  disp_h : Int := 0
  clip_in : Segment := {}
  clip_out : Segment := {}
  clip_tmp : Option String := none
  clip_last : Option String := none
  mcont : Segment := {}
  cursor : Segment := {}
  cursor_reject : Bool := false
  format : Nat := 0
  deriving DecidableEq, Repr

/-- What the handlers of `SDL_arcanevent.c` work on: the primary segment (`prim`, which is also
`cur`/`con`, the only call site passing the same pointer for both), the session state behind
`prim->user`, and the outside world. -/
structure Ctx where
  prim : Segment := {}
  meta : Arcan_SDL_Meta := {}
  env : Env := {}
  deriving DecidableEq, Repr

/-- What `Arcan_PumpEvents` starts from: the result of `arcan_shmif_primary(SHMIF_INPUT)`, its
`user` pointer, and the outside world. -/
structure World where
  primary : Option Segment := none
  user : Option Arcan_SDL_Meta := none
  env : Env := {}
  deriving DecidableEq, Repr

/-! ## The transport, as the driver sees it -/

/-- The call `arcan_shmif_resize(c, w, h)` on the segment named `n`: the call is recorded and
the next answer decides; on success the segment has the requested size. -/
def arcan_shmif_resize (n : SegName) (c : Segment) (w h : Int) (env : Env) :
    Bool × Segment × Env :=
  let env1 := env.call (Call.resize n w h)
  match env1.resizeAns with
  | [] => (false, c, env1)
  | a :: rest =>
    if a.ok then
      (true, { c with w := w, h := h, pitch := a.pitch, mem := a.mem },
        { env1 with resizeAns := rest })
    else (false, c, { env1 with resizeAns := rest })

/-- The call `arcan_shmif_acquire(owner, NULL, kind, 0)`: the call is recorded and the next
answer is returned; a failed acquisition is a segment with null `addr` and `vidp`. -/
def arcan_shmif_acquire (owner : SegName) (kind : SegKind) (env : Env) : Segment × Env :=
  let env1 := env.call (Call.acquire owner kind)
  match env1.acquireAns with
  | [] => ({}, env1)
  | a :: rest => (a, { env1 with acquireAns := rest })

/-- The events `arcan_shmif_poll` will return on a segment before it returns a value `<= 0`:
none on a segment without a mapped page. -/
def available (c : Segment) : List arcan_event :=
  if c.addr then c.inq else []

/-! ## `SDL_arcanevent.c` -/

/-- Source function `process_mouse`. -/
def process_mouse (P : Platform) (ev : arcan_event) (c : Ctx) : Ctx :=
  if ev.inp.datatype = DataType.ANALOG then
    let r := P.mousestate c.prim c.meta.mstate ev c.meta.mx c.meta.my
    let m := { c.meta with mstate := r.1, mx := r.2.1, my := r.2.2 }
    { c with meta := m, env := c.env.send (SinkEvent.MouseMotion 0 m.mrel m.mx m.my) }
  else if ev.inp.datatype = DataType.DIGITAL then
    match ev.inp.subid with
    | SubId.MBTN_LEFT_IND =>
      { c with env := (c.env.send
          (SinkEvent.MouseButton ev.inp.devid ev.inp.digital_active Button.SDL_BUTTON_LEFT)) }
    | SubId.MBTN_RIGHT_IND =>
      { c with env := (c.env.send
          (SinkEvent.MouseButton ev.inp.devid ev.inp.digital_active Button.SDL_BUTTON_RIGHT)) }
    | SubId.MBTN_MIDDLE_IND =>
      { c with env := (c.env.send
          (SinkEvent.MouseButton ev.inp.devid ev.inp.digital_active Button.SDL_BUTTON_MIDDLE)) }
    | SubId.MBTN_WHEEL_UP_IND =>
      if ev.inp.digital_active then
        { c with env := c.env.send (SinkEvent.MouseWheel ev.inp.devid 0 1) }
      else c
    | SubId.MBTN_WHEEL_DOWN_IND =>
      if ev.inp.digital_active then
        { c with env := c.env.send (SinkEvent.MouseWheel ev.inp.devid 0 (-1)) }
      else c
    | SubId.other _ => c
  else c

/-- Source function `process_keyb`. -/
def process_keyb (P : Platform) (ev : arcan_ioevent) (c : Ctx) : Ctx :=
  let c1 :=
    if ev.translated_active ∧ ev.utf8 ≠ "" then
      { c with env := c.env.send (SinkEvent.KeyboardText ev.utf8) }
    else c
  { c1 with env := (c1.env.send
      (SinkEvent.KeyboardKey ev.translated_active (P.scancode ev.scancode))) }

/-- Source function `process_gamedev`: an empty body. -/
def process_gamedev (_ev : arcan_ioevent) (c : Ctx) : Ctx := c

/-- Source function `process_touch`: an empty body. -/
def process_touch (_ev : arcan_ioevent) (c : Ctx) : Ctx := c

/-- Source function `process_input`. -/
def process_input (P : Platform) (ev : arcan_event) (c : Ctx) : Ctx :=
  if ev.inp.devkind = DevKind.MOUSE then process_mouse P ev c
  else if ev.inp.devkind = DevKind.KEYBOARD then process_keyb P ev.inp c
  else if ev.inp.devkind = DevKind.TOUCHDISP then process_touch ev.inp c
  else process_gamedev ev.inp c

/-- The `case TARGET_COMMAND_OUTPUTHINT` block of `process_target`, which the `DISPLAYHINT`
block falls through into. -/
def outputhint (ev : arcan_tgtevent) (c : Ctx) : Ctx :=
  if ev.iv 0 ≠ 0 ∧ ev.iv 1 ≠ 0 then
    { c with meta := { c.meta with disp_w := ev.iv 0, disp_h := ev.iv 1 } }
  else c

/-- Source function `process_target`; `wnd` is the window `meta->main` handed in by
`eventDispatch`. The `NEWSEGMENT` test `ev.ioevs[3].iv == 0xc1b0a12d` compares a 32-bit signed
slot with an unsigned literal, hence modulo `2^32`. -/
def process_target (P : Platform) (wnd : SDL_Window) (ev : arcan_tgtevent) (c : Ctx) : Ctx :=
  match ev.kind with
  | TargetCommand.EXIT =>
    { c with env := c.env.send (SinkEvent.WindowEvent WindowEventID.SDL_WINDOWEVENT_CLOSE 0 0) }
  | TargetCommand.FONTHINT => c
  | TargetCommand.ATTENUATE => c
  | TargetCommand.DEVICE_NODE => c
  | TargetCommand.RESET => c
  | TargetCommand.BCHUNK_IN => c
  | TargetCommand.STEPFRAME => c
  | TargetCommand.DISPLAYHINT =>
    let c1 :=
      if (ev.iv 0 ≠ 0 ∧ ev.iv 1 ≠ 0) ∧ (ev.iv 0 ≠ c.prim.w ∨ ev.iv 1 ≠ c.prim.h) then
        if wnd.resizable then
          let r := arcan_shmif_resize SegName.prim c.prim (ev.iv 0) (ev.iv 1) c.env
          if r.1 then
            { c with
              prim := r.2.1
              env := (((r.2.2).call (Call.make_current SegName.prim)).send
                (SinkEvent.WindowEvent WindowEventID.SDL_WINDOWEVENT_RESIZED (ev.iv 0) (ev.iv 1))) }
          else { c with prim := r.2.1, env := r.2.2 }
        else c
      else c
    outputhint ev c1
  | TargetCommand.OUTPUTHINT => outputhint ev c
  | TargetCommand.NEWSEGMENT =>
    if ev.iv 2 = P.SEGID_CLIPBOARD_PASTE then
      if ¬ c.meta.clip_in.vidp then
        let r := arcan_shmif_acquire SegName.prim SegKind.SEGID_CLIPBOARD_PASTE c.env
        { c with meta := { c.meta with clip_in := r.1 }, env := r.2 }
      else c
    else if ev.iv 1 = 0 ∧ ev.iv 3 % 4294967296 = 0xc1b0a12d then
      if ¬ c.meta.clip_out.vidp then
        let r := arcan_shmif_acquire SegName.prim SegKind.SEGID_CLIPBOARD c.env
        { c with meta := { c.meta with clip_out := r.1 }, env := r.2 }
      else c
    else c
  | TargetCommand.MESSAGE => c
  | TargetCommand.other => c

/-- Source function `eventDispatch`. The handlers receive `meta->main` as their window; every
call site sits behind a null test of `meta->main`, so the case of a null window (where
`process_target` would read `wnd->flags` through a null pointer) is not reached and is left
without effect. The call itself is noted in the ghost record `dispatched`. -/
def eventDispatch (P : Platform) (ev : arcan_event) (c : Ctx) : Ctx :=
  match c.meta.main with
  | none => c
  | some wnd =>
    let c0 := { c with env := { c.env with dispatched := c.env.dispatched ++ [ev] } }
    if ev.category = EventCategory.input then process_input P ev c0
    else if ev.category = EventCategory.target then process_target P wnd ev.tgt c0
    else c0

/-- The tail of the pending-queue loop body: `meta->pqueue[i]` is read again and, when it
carries a descriptor other than `-1`, the descriptor is closed. -/
def closeDescriptor (P : Platform) (i : Nat) (c : Ctx) : Ctx :=
  match c.meta.pqueue.bind (fun q => q[i]?) with
  | none => c
  | some ev =>
    if P.descrevent ev ∧ ev.tgt.iv 0 ≠ -1 then
      { c with env := c.env.call (Call.close (ev.tgt.iv 0)) }
    else c

/-- The `for` loop of `Arcan_PumpEvents` over the pending queue, entered with loop index `i`.
Each round re-reads `meta->pqueue_sz` and `meta->pqueue[i]` as the source does. `fuel` bounds
the number of rounds; `Arcan_PumpEvents` passes `pqueue_sz`, which the index cannot exceed.
An index past the end of the array (a size field larger than the array) stops the loop. -/
def pendingLoop (P : Platform) : Nat → Nat → Ctx → Ctx
  | 0, _, c => c
  | fuel + 1, i, c =>
    if (i : Int) < c.meta.pqueue_sz ∧ c.meta.pqueue_sz > 0 then
      match c.meta.pqueue.bind (fun q => q[i]?) with
      | none => c
      | some ev =>
        pendingLoop P fuel (i + 1) (closeDescriptor P i (eventDispatch P ev c))
    else c

/-- The loop `while (arcan_shmif_poll(con, &ev) > 0) eventDispatch(...)` on the primary
segment, `evs` being the events the segment still holds: every round is one poll that takes
the first of them, the last poll finds none. -/
def pollLoop (P : Platform) : List arcan_event → Ctx → Ctx
  | [], c => { c with env := c.env.call (Call.poll SegName.prim) }
  | ev :: rest, c =>
    pollLoop P rest (eventDispatch P ev
      { c with prim := { c.prim with inq := rest }, env := c.env.call (Call.poll SegName.prim) })

/-- The body of the clipboard loop of `Arcan_PumpEvents` for one polled event. -/
def clipMessage (ev : arcan_event) (m : Arcan_SDL_Meta) : Arcan_SDL_Meta :=
  if ev.category = EventCategory.target ∧ ev.tgt.kind = TargetCommand.MESSAGE then
    let m1 :=
      match m.clip_tmp with
      | none => { m with clip_tmp := some ev.tgt.message }
      | some tmp => { m with clip_tmp := some (tmp ++ ev.tgt.message) }
    if ev.tgt.iv 0 = 0 then { m1 with clip_last := m1.clip_tmp, clip_tmp := none }
    else m1
  else m

/-- The loop `while (arcan_shmif_poll(&meta->clip_in, &ev) > 0) ...`, `evs` being the events
the clipboard segment still holds. -/
def clipLoop : List arcan_event → Ctx → Ctx
  | [], c => { c with env := c.env.call (Call.poll SegName.clip_in) }
  | ev :: rest, c =>
    clipLoop rest
      { c with
        meta := clipMessage ev { c.meta with clip_in := { c.meta.clip_in with inq := rest } }
        env := c.env.call (Call.poll SegName.clip_in) }

/-- The block after the primary poll loop: the deferred motion event. -/
def flushMouse (c : Ctx) : Ctx :=
  if c.meta.dirty_mouse ∧ c.meta.main.isSome then
    { c with
      meta := { c.meta with dirty_mouse := false }
      env := c.env.send (SinkEvent.MouseMotion 0 c.meta.mrel c.meta.mx c.meta.my) }
  else c

/-- The block `if (meta->pqueue){ ... }` of `Arcan_PumpEvents`: the pending queue is replayed,
freed and reset. -/
def replayPending (P : Platform) (c : Ctx) : Ctx :=
  match c.meta.pqueue with
  | none => c
  | some _ =>
    let c1 := pendingLoop P c.meta.pqueue_sz.toNat 0 c
    { c1 with meta := { c1.meta with pqueue := none, pqueue_sz := 0 } }

/-- The block `while (con && meta->main){ ... con = NULL; }` of `Arcan_PumpEvents`, entered with
`con` the primary segment: its first round ends with `con = NULL`, so the body runs at most
once. -/
def drainPrimary (P : Platform) (c : Ctx) : Ctx :=
  if c.meta.main.isSome then flushMouse (pollLoop P (available c.prim) c)
  else c

/-- The clipboard block of `Arcan_PumpEvents`. -/
def drainClipboard (c : Ctx) : Ctx :=
  clipLoop (available c.meta.clip_in) c

/-- The statements of `Arcan_PumpEvents` from `SDL_LockMutex` to `SDL_UnlockMutex`: the lock,
the primary block, the clipboard block, the unlock. -/
def pumpLive (P : Platform) (c : Ctx) : Ctx :=
  let c2 := { c with env := c.env.call Call.LockMutex }
  let c3 := drainClipboard (drainPrimary P c2)
  { c3 with env := c3.env.call Call.UnlockMutex }

/-- The state a call of `Arcan_PumpEvents` leaves behind, from the context it ended in. -/
def Ctx.toWorld (c : Ctx) : World :=
  { primary := some c.prim, user := some c.meta, env := c.env }

/-- Source function `Arcan_PumpEvents`. The result is `none` when the call faults: the
initialiser `meta = con->user` reads through `con` before the test `!con`, so a null primary
segment is a null-pointer read. With a primary segment, a null `user` pointer or a null
`meta->main` is the early return. -/
def Arcan_PumpEvents (P : Platform) (w : World) : Option World :=
  match w.primary with
  | none => none
  | some prim =>
    match w.user with
    | none => some w
    | some m =>
      if m.main.isNone then some w
      else some (pumpLive P (replayPending P { prim := prim, meta := m, env := w.env })).toWorld

/-! ## `SDL_arcanmouse.c` -/

/-- The fields of `SDL_Surface` that `allocCursor` reads: size and pixels (format and pitch
only travel on to `SDL_ConvertPixels`). -/
structure SDL_Surface where
  w : Nat := 0
  h : Nat := 0
  pixels : List Nat := []
  deriving DecidableEq, Repr

/-- Source struct `Arcan_CursorData`; `cursor_type` holds the bytes before the terminating NUL,
`buffer` the `w * h` pixels of the flexible array member. -/
structure Arcan_CursorData where
  hot_x : Int := 0
  hot_y : Int := 0
  w : Nat := 0
  h : Nat := 0
  cursor_type : String := ""
  buffer : List Nat := []
  deriving DecidableEq, Repr

/-- An `SDL_Cursor` of this driver: its `driverdata`. -/
structure SDL_Cursor where
  driverdata : Arcan_CursorData := {}
  deriving DecidableEq, Repr

/-- The identifiers of `SDL_SystemCursor` that `Arcan_CreateSystemCursor` switches on; `other`
is any other value. -/
inductive SDL_SystemCursor
  | ARROW
  | IBEAM
  | WAIT
  | WAITARROW
  | CROSSHAIR
  | SIZENWSE
  | SIZENESW
  | SIZEWE
  | SIZENS
  | SIZEALL
  | NO
  | HAND
  | other
  deriving DecidableEq, Repr

/-- The call `arcan_shmif_acquireloop(&wd->mcont, &acqev, &wd->pqueue, &wd->pqueue_sz)`: the
call is recorded, the next answer gives the result and what the two out-parameters receive. An
exhausted answer list is a rejection that captured nothing. -/
def arcan_shmif_acquireloop (wd : Arcan_SDL_Meta) (env : Env) : Bool × Arcan_SDL_Meta × Env :=
  let env1 := env.call (Call.acquireloop SegName.mcont)
  match env1.acquireloopAns with
  | [] => (false, { wd with pqueue := none, pqueue_sz := 0 }, env1)
  | a :: rest =>
    (a.ok, { wd with pqueue := a.pqueue, pqueue_sz := a.pqueue_sz },
      { env1 with acquireloopAns := rest })

/-- Source function `allocCursor`. `cursor_ok` and `data_ok` say whether the two `calloc` calls
succeed. `system` is only read when `surf` is null; a null `system` there (undefined for
`snprintf`) leaves the label empty. `snprintf(.., 64, ..)` keeps at most 63 bytes. -/
def allocCursor (P : Platform) (system : Option String) (surf : Option SDL_Surface)
    (hot_x hot_y : Int) (cursor_ok data_ok : Bool) (wd : Arcan_SDL_Meta) (env : Env) :
    Option SDL_Cursor × Arcan_SDL_Meta × Env :=
  if ¬ cursor_ok then (none, wd, env)
  else if ¬ data_ok then (none, wd, env)
  else
    match surf with
    | some sf =>
      let s1 : Arcan_SDL_Meta × Env :=
        if ¬ wd.cursor.addr ∧ ¬ wd.cursor_reject then
          let env1 := env.call (Call.enqueue SegName.mcont
            (OutEvent.SEGREQ sf.w sf.h SegKind.SEGID_CURSOR 0xbad1dea))
          let r := arcan_shmif_acquireloop wd env1
          if r.1 then
            let a := arcan_shmif_acquire SegName.mcont SegKind.SEGID_CURSOR r.2.2
            ({ r.2.1 with cursor := a.1 }, a.2)
          else ({ r.2.1 with cursor_reject := true }, r.2.2)
        else (wd, env)
      if s1.1.cursor_reject then (none, s1.1, s1.2)
      else
        match P.ConvertPixels sf.w sf.h sf.pixels s1.1.format with
        | none => (none, s1.1, s1.2)
        | some buf =>
          (some { driverdata :=
            { hot_x := hot_x, hot_y := hot_y, w := sf.w, h := sf.h, buffer := buf } },
            s1.1, s1.2)
    | none =>
      (some { driverdata := { cursor_type := (system.getD "").take 63 } }, wd, env)

/-- Source function `Arcan_CreateCursor`. -/
def Arcan_CreateCursor (P : Platform) (surface : Option SDL_Surface) (hot_x hot_y : Int)
    (cursor_ok data_ok : Bool) (wd : Arcan_SDL_Meta) (env : Env) :
    Option SDL_Cursor × Arcan_SDL_Meta × Env :=
  allocCursor P none surface hot_x hot_y cursor_ok data_ok wd env

/-- The label chosen by the switch of `Arcan_CreateSystemCursor`. -/
def systemCursorLabel : SDL_SystemCursor → String
  | SDL_SystemCursor.ARROW => "default"
  | SDL_SystemCursor.IBEAM => "typefield"
  | SDL_SystemCursor.WAIT => "wait"
  | SDL_SystemCursor.WAITARROW => "wait"
  | SDL_SystemCursor.CROSSHAIR => "cross"
  | SDL_SystemCursor.SIZENWSE => "diag-ll"
  | SDL_SystemCursor.SIZENESW => "diag-ur"
  | SDL_SystemCursor.SIZEWE => "left-right"
  | SDL_SystemCursor.SIZENS => "up-down"
  | SDL_SystemCursor.SIZEALL => "move"
  | SDL_SystemCursor.NO => "forbidden"
  | SDL_SystemCursor.HAND => "hand"
  | SDL_SystemCursor.other => "default"

/-- Source function `Arcan_CreateSystemCursor`. -/
def Arcan_CreateSystemCursor (P : Platform) (id : SDL_SystemCursor)
    (cursor_ok data_ok : Bool) (wd : Arcan_SDL_Meta) (env : Env) :
    Option SDL_Cursor × Arcan_SDL_Meta × Env :=
  allocCursor P (some (systemCursorLabel id)) none 0 0 cursor_ok data_ok wd env

/-- The call `memcpy(&dst[off], src, ..)` on pixel arrays; a copy that would run past the end
of `dst` (undefined in C) writes nothing. -/
def memcpy (dst : List Nat) (off : Nat) (src : List Nat) : List Nat :=
  if off + src.length ≤ dst.length then dst.take off ++ src ++ dst.drop (off + src.length)
  else dst

/-- The row loop of `synchCursor`, entered with row index `y` and `n` rows to go. -/
def copyRows (cd : Arcan_CursorData) (pitch : Nat) : Nat → Nat → List Nat → List Nat
  | 0, _, mem => mem
  | n + 1, y, mem =>
    copyRows cd pitch n (y + 1) (memcpy mem (pitch * y) ((cd.buffer.drop (y * cd.w)).take cd.w))

/-- The call `arcan_shmif_signal(dst, SHMIF_SIGVID | SHMIF_SIGBLK_NONE)`: the call is recorded
and the vsync-ready flag is set, the next answer saying when the server clears it. -/
def arcan_shmif_signal (n : SegName) (c : Segment) (env : Env) : Segment × Env :=
  let env1 := env.call (Call.signal n)
  match env1.signalAns with
  | [] => ({ c with vready := VReady.hung }, env1)
  | a :: rest => ({ c with vready := a }, { env1 with signalAns := rest })

/-- The tail of `synchCursor`: the row loop and the signal. -/
def synchCursorRows (d : Segment) (cd : Arcan_CursorData) (env : Env) : Segment × Env :=
  arcan_shmif_signal SegName.cursor { d with mem := copyRows cd d.pitch cd.h 0 d.mem } env

/-- Source function `synchCursor` on the cursor segment. The result is `none` when the spin
`while (dst->addr->vready){}` never ends. `memset(dst->vidb, 0, dst->h * dst->stride)` clears
the first `h * pitch` pixels. -/
def synchCursor (dst : Segment) (cd : Arcan_CursorData) (env : Env) : Option (Segment × Env) :=
  match dst.vready with
  | VReady.hung => none
  | _ =>
    let d0 := { dst with vready := VReady.clear }
    if (cd.w : Int) > d0.w ∨ (cd.h : Int) > d0.h then
      let a := arcan_shmif_resize SegName.cursor d0 cd.w cd.h env
      if ¬ a.1 then some (a.2.1, a.2.2)
      else
        let d1 := a.2.1
        let k := d1.h.toNat * d1.pitch
        synchCursorRows
          { d1 with mem := List.replicate (min k d1.mem.length) 0 ++ d1.mem.drop k } cd a.2.2
    else synchCursorRows d0 cd env

/-- Source function `Arcan_ShowCursor`; the result is `none` when `synchCursor` never returns,
otherwise the return value (always `0`) with the new state. The `snprintf` into
`outev.ext.message.data` keeps at most `message_sz - 1` bytes. -/
def Arcan_ShowCursor (P : Platform) (cursor : Option SDL_Cursor) (d : Arcan_SDL_Meta)
    (env : Env) : Option (Int × Arcan_SDL_Meta × Env) :=
  match cursor with
  | some cur =>
    let cd := cur.driverdata
    if d.cursor.addr then
      if cd.cursor_type = "" then
        (synchCursor d.cursor cd env).map (fun r => (0, { d with cursor := r.1 }, r.2))
      else
        some (0, d, env.call (Call.enqueue SegName.cursor
          (OutEvent.CURSORHINT (cd.cursor_type.take (P.message_sz - 1)))))
    else
      some (0, d, env.call (Call.enqueue SegName.mcont
        (OutEvent.CURSORHINT (cd.cursor_type.take (P.message_sz - 1)))))
  | none =>
    if d.cursor.addr then
      some (0, d, env.call (Call.enqueue SegName.mcont (OutEvent.CURSORHINT "hidden")))
    else some (0, d, env)

/-- A platform without a scancode table (the identity translation of the non-Linux build),
whose pointer tracker reports the first two analog samples as absolute coordinates and whose
pixel conversion is the identity. -/
def Platform.plain : Platform where
  mousestate := fun _ st ev _ _ => (st, ev.inp.axisval.getD 0 0, ev.inp.axisval.getD 1 0)
  descrevent := fun ev =>
    ev.category = EventCategory.target ∧ ev.tgt.kind = TargetCommand.BCHUNK_IN
  scancode := id
  SEGID_CLIPBOARD_PASTE := 10
  ConvertPixels := fun _ _ px _ => some px
  message_sz := 78

/-- A `DISPLAYHINT` event carrying the two requested dimensions. -/
def displayhint (w h : Int) : arcan_tgtevent :=
  { kind := TargetCommand.DISPLAYHINT, ioevs := [w, h] }

/-- A `NEWSEGMENT` event whose third slot carries the clipboard-paste marker of
`Platform.plain`. -/
def newsegmentPaste : arcan_tgtevent :=
  { kind := TargetCommand.NEWSEGMENT, ioevs := [0, 0, 10, 0] }

/-- The part of a context the handlers never write: the main window, the pending queue with
its size, and whether the primary segment is mapped. -/
def Ctx.fixed (c : Ctx) : Option SDL_Window × Option (List arcan_event) × Int × Bool :=
  (c.meta.main, c.meta.pqueue, c.meta.pqueue_sz, c.prim.addr)

/-- The clipboard reassembly state: accumulator and last completed text. -/
def Ctx.clip (c : Ctx) : Option String × Option String :=
  (c.meta.clip_tmp, c.meta.clip_last)

/-- The text payloads of a sequence of events, concatenated in order. -/
def payloads (evs : List arcan_event) : String :=
  evs.foldr (fun e s => e.tgt.message ++ s) ""

/-- A `MESSAGE` event with its text and continuation flag (`ioevs[0]`). -/
def message (text : String) (cont : Int) : arcan_event :=
  { category := EventCategory.target
    tgt := { kind := TargetCommand.MESSAGE, ioevs := [cont], message := text } }

/-- The state seen by the next `Arcan_PumpEvents` call when, in between, the transport has
made the events `live` available on the primary segment. -/
def World.arrive (w : World) (live : List arcan_event) : World :=
  { w with primary := w.primary.map (fun p => { p with inq := live }) }

/-- An analog mouse event carrying the two samples `x`, `y`. -/
def analog (x y : Int) : arcan_event :=
  { category := EventCategory.input
    inp := { devkind := DevKind.MOUSE, datatype := DataType.ANALOG, axisval := [x, y] } }

/-- An `OUTPUTHINT` event carrying the two advisory dimensions. -/
def outputhintEvent (w h : Int) : arcan_tgtevent :=
  { kind := TargetCommand.OUTPUTHINT, ioevs := [w, h] }

/-- The body of the pending-queue loop of `Arcan_PumpEvents` for an event `ev` standing at
`meta->pqueue[i]`: the event is dispatched, then the descriptor it carries, if any other than
`-1`, is closed. -/
def replayOne (P : Platform) (c : Ctx) (ev : arcan_event) : Ctx :=
  if P.descrevent ev ∧ ev.tgt.iv 0 ≠ -1 then
    { eventDispatch P ev c with
      env := (eventDispatch P ev c).env.call (Call.close (ev.tgt.iv 0)) }
  else eventDispatch P ev c

/-- The end of the pending-queue block: `meta->pqueue = NULL; meta->pqueue_sz = 0`. -/
def Ctx.clearPending (c : Ctx) : Ctx :=
  { c with meta := { c.meta with pqueue := none, pqueue_sz := 0 } }

/-- A key press with the given scancode and no text. -/
def keyPress (scancode : Nat) : arcan_event :=
  { category := EventCategory.input
    inp := { devkind := DevKind.KEYBOARD, translated_active := true, scancode := scancode } }

/-- A target command of the given kind whose first slot is `iv0`. -/
def targetCommand (kind : TargetCommand) (iv0 : Int) : arcan_event :=
  { category := EventCategory.target, tgt := { kind := kind, ioevs := [iv0] } }

/-! ## Pointer and keyboard translation -/

/-- C7. A digital mouse event whose sub-identifier is wheel-up or wheel-down changes nothing but
the event sink: with the active flag set, `process_mouse` forwards exactly one wheel event, with
`(x, y) = (0, 1)` for wheel-up and `(0, -1)` for wheel-down; with the flag clear it forwards no
event at all. -/
theorem process_mouse_wheel (P : Platform) (ev : arcan_event) (c : Ctx)
    (hd : ev.inp.datatype = DataType.DIGITAL)
    (hs : ev.inp.subid = SubId.MBTN_WHEEL_UP_IND ∨ ev.inp.subid = SubId.MBTN_WHEEL_DOWN_IND) :
    process_mouse P ev c =
      { c with env := { c.env with sink := c.env.sink ++
          (if ev.inp.digital_active then
            [SinkEvent.MouseWheel ev.inp.devid 0
              (if ev.inp.subid = SubId.MBTN_WHEEL_UP_IND then 1 else -1)]
          else []) } } := by
  rcases hs with hs | hs <;> cases ha : ev.inp.digital_active <;>
    simp [process_mouse, hd, hs, ha, Env.send]

/-- C7, at a wheel-up press and a wheel-down release on an empty sink. -/
theorem process_mouse_wheel_witness :
    process_mouse Platform.plain
        { category := EventCategory.input
          inp := { devkind := DevKind.MOUSE, datatype := DataType.DIGITAL,
                   subid := SubId.MBTN_WHEEL_UP_IND, digital_active := true } } {} =
      { env := { sink := [SinkEvent.MouseWheel 0 0 1] } } ∧
    process_mouse Platform.plain
        { category := EventCategory.input
          inp := { devkind := DevKind.MOUSE, datatype := DataType.DIGITAL,
                   subid := SubId.MBTN_WHEEL_DOWN_IND, digital_active := false } } {} = {} :=
  ⟨process_mouse_wheel Platform.plain _ {} rfl (Or.inl rfl),
   process_mouse_wheel Platform.plain _ {} rfl (Or.inr rfl)⟩

/-- C8, as stated, fails on a key release that carries text: `process_keyb` forwards the key
event only, and no text-input event. -/
theorem process_keyb_release_text :
    (({ translated_active := false, utf8 := "a", scancode := 4 } : arcan_ioevent).utf8 ≠ "") ∧
    (process_keyb Platform.plain { translated_active := false, utf8 := "a", scancode := 4 }
        {}).env.sink = [SinkEvent.KeyboardKey false 4] := by
  decide

/-- C8, amended. For every keyboard event `process_keyb` changes nothing but the event sink,
to which it forwards a text-input event carrying the decoded text exactly when the event is a
press (active flag set) with a non-empty text field, and then, in every case, exactly one key
event whose pressed state is the event's active flag. -/
theorem process_keyb_forwards (P : Platform) (ev : arcan_ioevent) (c : Ctx) :
    process_keyb P ev c =
      { c with env := { c.env with sink := c.env.sink ++
          (if ev.translated_active = true ∧ ev.utf8 ≠ "" then [SinkEvent.KeyboardText ev.utf8]
           else []) ++
          [SinkEvent.KeyboardKey ev.translated_active (P.scancode ev.scancode)] } } := by
  by_cases h : ev.translated_active = true ∧ ev.utf8 ≠ "" <;>
    simp [process_keyb, h, Env.send]

/-! ## Target commands -/

theorem outputhint_env (ev : arcan_tgtevent) (c : Ctx) : (outputhint ev c).env = c.env := by
  unfold outputhint
  split <;> rfl

theorem outputhint_prim (ev : arcan_tgtevent) (c : Ctx) : (outputhint ev c).prim = c.prim := by
  unfold outputhint
  split <;> rfl

theorem resize_calls (n : SegName) (s : Segment) (w h : Int) (env : Env) :
    (arcan_shmif_resize n s w h env).2.2.calls = env.calls ++ [Call.resize n w h] := by
  unfold arcan_shmif_resize
  simp only [Env.call]
  split
  · rfl
  · split <;> rfl

/-- C4, as stated, fails on a negative dimension: `DISPLAYHINT(-1, 600)` on a resizable window
over a 640x480 segment requests the transport resize to `(-1, 600)`. -/
theorem displayhint_negative_resizes :
    (process_target Platform.plain { resizable := true } (displayhint (-1) 600)
        { prim := { addr := true, vidp := true, w := 640, h := 480 } }).env.calls =
      [Call.resize SegName.prim (-1) 600] := by
  decide

/-- C4, amended. For every `DISPLAYHINT` event, over all signed values of the two requested
dimensions: unless both dimensions are non-zero, the requested size differs from the segment's
current size and the window is resizable, `process_target` makes no transport call at all; and
when the three conditions hold the next transport call is the resize to the requested size. In
particular `DISPLAYHINT(0, 600)` never requests a resize. -/
theorem displayhint_resize_guard (P : Platform) (wnd : SDL_Window) (ev : arcan_tgtevent)
    (c : Ctx) (hk : ev.kind = TargetCommand.DISPLAYHINT) :
    (¬ ((ev.iv 0 ≠ 0 ∧ ev.iv 1 ≠ 0) ∧ (ev.iv 0 ≠ c.prim.w ∨ ev.iv 1 ≠ c.prim.h) ∧
          wnd.resizable = true) →
        (process_target P wnd ev c).env.calls = c.env.calls) ∧
    (((ev.iv 0 ≠ 0 ∧ ev.iv 1 ≠ 0) ∧ (ev.iv 0 ≠ c.prim.w ∨ ev.iv 1 ≠ c.prim.h) ∧
          wnd.resizable = true) →
        ∃ rest, (process_target P wnd ev c).env.calls =
            c.env.calls ++ Call.resize SegName.prim (ev.iv 0) (ev.iv 1) :: rest ∧
          ∀ n w h, Call.resize n w h ∉ rest) ∧
    (process_target P wnd (displayhint 0 600) c).env.calls = c.env.calls := by
  refine ⟨?_, ?_, ?_⟩
  · intro h
    simp only [process_target, hk, outputhint_env]
    by_cases h1 : (ev.iv 0 ≠ 0 ∧ ev.iv 1 ≠ 0) ∧ (ev.iv 0 ≠ c.prim.w ∨ ev.iv 1 ≠ c.prim.h)
    · have h2 : wnd.resizable = false := by
        cases hr : wnd.resizable
        · rfl
        · exact absurd ⟨h1.1, h1.2, hr⟩ h
      simp [h1, h2]
    · simp [h1]
  · intro h
    have h1 : (ev.iv 0 ≠ 0 ∧ ev.iv 1 ≠ 0) ∧ (ev.iv 0 ≠ c.prim.w ∨ ev.iv 1 ≠ c.prim.h) :=
      ⟨h.1, h.2.1⟩
    simp only [process_target, hk, outputhint_env, if_pos h1, h.2.2, if_true]
    cases hr : (arcan_shmif_resize SegName.prim c.prim (ev.iv 0) (ev.iv 1) c.env).1
    · refine ⟨[], ?_, ?_⟩
      · simp [resize_calls]
      · simp
    · refine ⟨[Call.make_current SegName.prim], ?_, ?_⟩
      · simp [resize_calls, Env.call, Env.send]
      · simp
  · simp [process_target, displayhint, outputhint_env, arcan_tgtevent.iv]

/-- C4, at `DISPLAYHINT(0, 600)` on a resizable window over a 640x480 segment: no transport
call is made. -/
theorem displayhint_resize_guard_witness :
    (process_target Platform.plain { resizable := true } (displayhint 0 600)
        { prim := { addr := true, vidp := true, w := 640, h := 480 } }).env.calls = [] :=
  (displayhint_resize_guard Platform.plain { resizable := true } (displayhint 0 600)
    { prim := { addr := true, vidp := true, w := 640, h := 480 } } rfl).1 (by decide)

/-- C6. For every `NEWSEGMENT` event carrying the clipboard-paste marker: when no clipboard-in
segment is bound, `process_target` makes exactly one transport call, an acquire attempt for the
clipboard-in kind (so none for clipboard-out), and stores its result as the clipboard-in
segment; when a clipboard-in segment is already bound it makes no call and leaves the whole
state as it was. -/
theorem newsegment_paste_acquire (P : Platform) (wnd : SDL_Window) (ev : arcan_tgtevent)
    (c : Ctx) (hk : ev.kind = TargetCommand.NEWSEGMENT)
    (hp : ev.iv 2 = P.SEGID_CLIPBOARD_PASTE) :
    (c.meta.clip_in.vidp = false →
        (process_target P wnd ev c).env.calls =
            c.env.calls ++ [Call.acquire SegName.prim SegKind.SEGID_CLIPBOARD_PASTE] ∧
          (process_target P wnd ev c).meta.clip_in =
            (arcan_shmif_acquire SegName.prim SegKind.SEGID_CLIPBOARD_PASTE c.env).1 ∧
          (process_target P wnd ev c).meta.clip_out = c.meta.clip_out) ∧
    (c.meta.clip_in.vidp = true → process_target P wnd ev c = c) := by
  constructor
  · intro hv
    simp only [process_target, hk, hp, hv, if_true]
    simp only [arcan_shmif_acquire, Env.call]
    cases c.env.acquireAns <;> simp
  · intro hv
    simp [process_target, hk, hp, hv]

/-- C6, at a paste `NEWSEGMENT` with no clipboard-in segment bound, and again once the
acquired segment is bound. -/
theorem newsegment_paste_acquire_witness :
    (process_target Platform.plain {} newsegmentPaste
        { env := { acquireAns := [{ addr := true, vidp := true }] } }).env.calls =
      [Call.acquire SegName.prim SegKind.SEGID_CLIPBOARD_PASTE] ∧
    process_target Platform.plain {} newsegmentPaste
        { meta := { clip_in := { addr := true, vidp := true } } } =
      { meta := { clip_in := { addr := true, vidp := true } } } :=
  ⟨((newsegment_paste_acquire Platform.plain {} newsegmentPaste
      { env := { acquireAns := [{ addr := true, vidp := true }] } } rfl rfl).1 rfl).1,
   (newsegment_paste_acquire Platform.plain {} newsegmentPaste
      { meta := { clip_in := { addr := true, vidp := true } } } rfl rfl).2 rfl⟩

/-! ## The event pump without a window -/

theorem pump_null_primary (P : Platform) (user : Option Arcan_SDL_Meta) (env : Env) :
    Arcan_PumpEvents P { primary := none, user := user, env := env } = none := by
  rfl

/-- C9. In every state with a primary segment in which no main window is bound (a null `user`
pointer, or a session whose `main` is null), `Arcan_PumpEvents` returns, and returns the state
it was given: nothing is forwarded to the event sink, no segment is polled (no transport call
is made), and the pending queue and every other field of the session are unchanged. -/
theorem pump_without_window (P : Platform) (prim : Segment) (user : Option Arcan_SDL_Meta)
    (env : Env) (h : ∀ m, user = some m → m.main = none) :
    Arcan_PumpEvents P { primary := some prim, user := user, env := env } =
      some { primary := some prim, user := user, env := env } := by
  unfold Arcan_PumpEvents
  cases user with
  | none => rfl
  | some m => simp [h m rfl]

/-- C9, at a state with two pending events and one live event but no main window. -/
theorem pump_without_window_witness :
    Arcan_PumpEvents Platform.plain
        { primary := some { addr := true, inq := [{ category := EventCategory.input }] }
          user := some { main := none, pqueue := some [{}, {}], pqueue_sz := 2 } } =
      some { primary := some { addr := true, inq := [{ category := EventCategory.input }] }
             user := some { main := none, pqueue := some [{}, {}], pqueue_sz := 2 } } :=
  pump_without_window Platform.plain
    { addr := true, inq := [{ category := EventCategory.input }] }
    (some { main := none, pqueue := some [{}, {}], pqueue_sz := 2 }) {}
    (by intro m hm; cases hm; rfl)

/-! ## The mouse cursor -/

/-- C10, as stated, fails when no cursor segment is bound: hiding the cursor then enqueues
nothing. -/
theorem hide_cursor_unbound :
    Arcan_ShowCursor Platform.plain none { mcont := { addr := true, vidp := true } } {} =
      some (0, { mcont := { addr := true, vidp := true } }, {}) := by
  decide

/-- C10, amended. Hiding the cursor (`Arcan_ShowCursor` with a null cursor) returns `0` and
leaves the session unchanged; when a dedicated cursor segment is bound it enqueues exactly one
cursor-hint message with the label "hidden", on the main connection, and when none is bound it
enqueues nothing. -/
theorem hide_cursor (P : Platform) (d : Arcan_SDL_Meta) (env : Env) :
    Arcan_ShowCursor P none d env =
      some (0, d,
        { env with calls := env.calls ++
            (if d.cursor.addr = true then
              [Call.enqueue SegName.mcont (OutEvent.CURSORHINT "hidden")]
            else []) }) := by
  cases h : d.cursor.addr <;> simp [Arcan_ShowCursor, h, Env.call]

/-- C5. With the cursor-segment-rejected flag set, a cursor creation call with a pixel surface
returns no cursor and leaves the session and the outside world exactly as they were: no segment
request is enqueued, no acquire loop runs, the flag stays set. When the flag is clear, no cursor
segment is bound and the acquire loop answers a rejection, the call enqueues the request, runs
the loop and sets the flag. Hence every later call with a pixel surface, whatever its
arguments, changes nothing and negotiates nothing. -/
theorem cursor_reject_sticky (P : Platform) (system : Option String) (sf : SDL_Surface)
    (hot_x hot_y : Int) (cursor_ok data_ok : Bool) (wd : Arcan_SDL_Meta) (env : Env) :
    (wd.cursor_reject = true →
        allocCursor P system (some sf) hot_x hot_y cursor_ok data_ok wd env = (none, wd, env)) ∧
    (cursor_ok = true → data_ok = true → wd.cursor.addr = false → wd.cursor_reject = false →
      (arcan_shmif_acquireloop wd (env.call (Call.enqueue SegName.mcont
          (OutEvent.SEGREQ sf.w sf.h SegKind.SEGID_CURSOR 0xbad1dea)))).1 = false →
        (allocCursor P system (some sf) hot_x hot_y cursor_ok data_ok wd env).2.1.cursor_reject
            = true ∧
          (allocCursor P system (some sf) hot_x hot_y cursor_ok data_ok wd env).2.2.calls =
            env.calls ++ [Call.enqueue SegName.mcont
              (OutEvent.SEGREQ sf.w sf.h SegKind.SEGID_CURSOR 0xbad1dea),
              Call.acquireloop SegName.mcont] ∧
          ∀ (system2 : Option String) (sf2 : SDL_Surface) (hx hy : Int) (ok1 ok2 : Bool),
            allocCursor P system2 (some sf2) hx hy ok1 ok2
                (allocCursor P system (some sf) hot_x hot_y cursor_ok data_ok wd env).2.1
                (allocCursor P system (some sf) hot_x hot_y cursor_ok data_ok wd env).2.2 =
              (none,
                (allocCursor P system (some sf) hot_x hot_y cursor_ok data_ok wd env).2.1,
                (allocCursor P system (some sf) hot_x hot_y cursor_ok data_ok wd env).2.2)) := by
  have sticky : ∀ (sys : Option String) (s : SDL_Surface) (hx hy : Int) (ok1 ok2 : Bool)
      (m : Arcan_SDL_Meta) (e : Env), m.cursor_reject = true →
      allocCursor P sys (some s) hx hy ok1 ok2 m e = (none, m, e) := by
    intro sys s hx hy ok1 ok2 m e hr
    cases ok1 <;> cases ok2 <;> simp [allocCursor, hr]
  refine ⟨sticky system sf hot_x hot_y cursor_ok data_ok wd env, ?_⟩
  intro h1 h2 ha hr hl
  have hflag : (allocCursor P system (some sf) hot_x hot_y cursor_ok data_ok wd env).2.1.cursor_reject
      = true := by
    simp [allocCursor, h1, h2, ha, hr, hl]
  refine ⟨hflag, ?_, ?_⟩
  · simp only [allocCursor, h1, h2, ha, hr, hl]
    simp only [arcan_shmif_acquireloop, Env.call]
    cases env.acquireloopAns <;> simp
  · intro system2 sf2 hx hy ok1 ok2
    exact sticky system2 sf2 hx hy ok1 ok2 _ _ hflag

/-- C5, at a session whose flag is already set, and at a first negotiation that the server
rejects. -/
theorem cursor_reject_sticky_witness :
    allocCursor Platform.plain none (some { w := 2, h := 2, pixels := [1, 2, 3, 4] }) 0 0
        true true { cursor_reject := true } {} = (none, { cursor_reject := true }, {}) ∧
    (allocCursor Platform.plain none (some { w := 2, h := 2, pixels := [1, 2, 3, 4] }) 0 0
        true true {} { acquireloopAns := [{ ok := false }] }).2.1.cursor_reject = true :=
  ⟨(cursor_reject_sticky Platform.plain none { w := 2, h := 2, pixels := [1, 2, 3, 4] } 0 0
      true true { cursor_reject := true } {}).1 rfl,
   ((cursor_reject_sticky Platform.plain none { w := 2, h := 2, pixels := [1, 2, 3, 4] } 0 0
      true true {} { acquireloopAns := [{ ok := false }] }).2 rfl rfl rfl rfl rfl).1⟩

/-! ## What the handlers leave alone -/

theorem process_mouse_fixed (P : Platform) (ev : arcan_event) (c : Ctx) :
    (process_mouse P ev c).fixed = c.fixed ∧ (process_mouse P ev c).clip = c.clip ∧
      (process_mouse P ev c).env.dispatched = c.env.dispatched ∧
      (process_mouse P ev c).meta.clip_in = c.meta.clip_in ∧
      (process_mouse P ev c).prim = c.prim := by
  unfold process_mouse
  split
  · simp [Ctx.fixed, Ctx.clip, Env.send]
  · split
    · split <;> (try split) <;> simp [Ctx.fixed, Ctx.clip, Env.send]
    · simp

theorem process_keyb_fixed (P : Platform) (ev : arcan_ioevent) (c : Ctx) :
    (process_keyb P ev c).fixed = c.fixed ∧ (process_keyb P ev c).clip = c.clip ∧
      (process_keyb P ev c).env.dispatched = c.env.dispatched ∧
      (process_keyb P ev c).meta.clip_in = c.meta.clip_in ∧
      (process_keyb P ev c).prim = c.prim := by
  unfold process_keyb
  split <;> simp [Ctx.fixed, Ctx.clip, Env.send]

theorem process_input_fixed (P : Platform) (ev : arcan_event) (c : Ctx) :
    (process_input P ev c).fixed = c.fixed ∧ (process_input P ev c).clip = c.clip ∧
      (process_input P ev c).env.dispatched = c.env.dispatched ∧
      (process_input P ev c).meta.clip_in = c.meta.clip_in ∧
      (process_input P ev c).prim = c.prim := by
  unfold process_input
  split
  · exact process_mouse_fixed P ev c
  · split
    · exact process_keyb_fixed P ev.inp c
    · split <;> simp [process_touch, process_gamedev]

theorem resize_addr (n : SegName) (s : Segment) (w h : Int) (env : Env) :
    (arcan_shmif_resize n s w h env).2.1.addr = s.addr ∧
      (arcan_shmif_resize n s w h env).2.2.dispatched = env.dispatched ∧
      (arcan_shmif_resize n s w h env).2.2.sink = env.sink := by
  unfold arcan_shmif_resize
  simp only [Env.call]
  split
  · simp
  · split <;> simp

theorem acquire_env (o : SegName) (k : SegKind) (env : Env) :
    (arcan_shmif_acquire o k env).2.dispatched = env.dispatched ∧
      (arcan_shmif_acquire o k env).2.sink = env.sink := by
  unfold arcan_shmif_acquire
  simp only [Env.call]
  split <;> simp

theorem outputhint_fixed (ev : arcan_tgtevent) (c : Ctx) :
    (outputhint ev c).fixed = c.fixed ∧ (outputhint ev c).clip = c.clip ∧
      (outputhint ev c).meta.clip_in = c.meta.clip_in := by
  unfold outputhint
  split <;> simp [Ctx.fixed, Ctx.clip]

theorem process_target_fixed (P : Platform) (wnd : SDL_Window) (ev : arcan_tgtevent) (c : Ctx) :
    (process_target P wnd ev c).fixed = c.fixed ∧ (process_target P wnd ev c).clip = c.clip ∧
      (process_target P wnd ev c).env.dispatched = c.env.dispatched ∧
      (c.meta.clip_in.vidp = true → (process_target P wnd ev c).meta.clip_in = c.meta.clip_in) := by
  unfold process_target
  split
  · simp [Ctx.fixed, Ctx.clip, Env.send]
  · simp
  · simp
  · simp
  · simp
  · simp
  · simp
  · simp only [outputhint_env, (outputhint_fixed _ _).1, (outputhint_fixed _ _).2.1,
      (outputhint_fixed _ _).2.2]
    split
    · split
      · split <;> simp [Ctx.fixed, Ctx.clip, Env.send, Env.call, resize_addr]
      · simp
    · simp
  · simp [outputhint_env, outputhint_fixed]
  · split
    · split
      · simp_all [Ctx.fixed, Ctx.clip, acquire_env]
      · simp
    · split
      · split <;> simp [Ctx.fixed, Ctx.clip, acquire_env]
      · simp
  · simp
  · simp

theorem eventDispatch_fixed (P : Platform) (ev : arcan_event) (c : Ctx) (wnd : SDL_Window)
    (hm : c.meta.main = some wnd) :
    (eventDispatch P ev c).fixed = c.fixed ∧ (eventDispatch P ev c).clip = c.clip ∧
      (eventDispatch P ev c).env.dispatched = c.env.dispatched ++ [ev] ∧
      (c.meta.clip_in.vidp = true → (eventDispatch P ev c).meta.clip_in = c.meta.clip_in) := by
  unfold eventDispatch
  simp only [hm]
  split
  · have h := process_input_fixed P ev
      { c with env := { c.env with dispatched := c.env.dispatched ++ [ev] } }
    exact ⟨h.1, h.2.1, h.2.2.1, fun _ => h.2.2.2.1⟩
  · split
    · exact process_target_fixed P wnd ev.tgt
        { c with env := { c.env with dispatched := c.env.dispatched ++ [ev] } }
    · simp [Ctx.fixed, Ctx.clip]

theorem closeDescriptor_fixed (P : Platform) (i : Nat) (c : Ctx) :
    (closeDescriptor P i c).fixed = c.fixed ∧ (closeDescriptor P i c).clip = c.clip ∧
      (closeDescriptor P i c).env.dispatched = c.env.dispatched ∧
      (closeDescriptor P i c).meta.clip_in = c.meta.clip_in ∧
      (closeDescriptor P i c).env.sink = c.env.sink := by
  unfold closeDescriptor
  split
  · simp
  · split <;> simp [Ctx.fixed, Ctx.clip, Env.call]

theorem pendingLoop_fixed (P : Platform) (wnd : SDL_Window) (q : List arcan_event) :
    ∀ (fuel i : Nat) (c : Ctx), c.meta.main = some wnd → c.meta.pqueue = some q →
      c.meta.pqueue_sz = q.length → i + fuel = q.length →
      (pendingLoop P fuel i c).fixed = c.fixed ∧ (pendingLoop P fuel i c).clip = c.clip ∧
        (pendingLoop P fuel i c).env.dispatched = c.env.dispatched ++ q.drop i ∧
        (c.meta.clip_in.vidp = true → (pendingLoop P fuel i c).meta.clip_in = c.meta.clip_in) := by
  intro fuel
  induction fuel with
  | zero =>
    intro i c _ _ _ hi
    have : q.length ≤ i := by omega
    simp [pendingLoop, List.drop_eq_nil_of_le this]
  | succ fuel ih =>
    intro i c hm hq hsz hi
    have hlt : i < q.length := by omega
    have hcond : (i : Int) < c.meta.pqueue_sz ∧ c.meta.pqueue_sz > 0 := by
      rw [hsz]; constructor <;> omega
    have hget : c.meta.pqueue.bind (fun q => q[i]?) = some q[i] := by
      simp [hq, List.getElem?_eq_getElem hlt]
    unfold pendingLoop
    rw [if_pos hcond]
    simp only [hget]
    have hd := eventDispatch_fixed P q[i] c wnd hm
    have hc := closeDescriptor_fixed P i (eventDispatch P q[i] c)
    have hfix : (closeDescriptor P i (eventDispatch P q[i] c)).fixed = c.fixed := by
      rw [hc.1, hd.1]
    have hfix2 := hfix
    simp only [Ctx.fixed, Prod.mk.injEq] at hfix2
    have h := ih (i + 1) (closeDescriptor P i (eventDispatch P q[i] c))
      (by rw [hfix2.1, hm]) (by rw [hfix2.2.1, hq]) (by rw [hfix2.2.2.1, hsz]) (by omega)
    refine ⟨by rw [h.1, hfix], by rw [h.2.1, hc.2.1, hd.2.1], ?_, ?_⟩
    · rw [h.2.2.1, hc.2.2.1, hd.2.2.1, List.append_assoc]
      simp
    · intro hv
      have h1 := hd.2.2.2 hv
      have h2 : (closeDescriptor P i (eventDispatch P q[i] c)).meta.clip_in = c.meta.clip_in := by
        rw [hc.2.2.2.1, h1]
      rw [h.2.2.2 (by rw [h2]; exact hv), h2]

theorem pollLoop_fixed (P : Platform) (wnd : SDL_Window) :
    ∀ (evs : List arcan_event) (c : Ctx), c.meta.main = some wnd →
      (pollLoop P evs c).fixed = c.fixed ∧ (pollLoop P evs c).clip = c.clip ∧
        (pollLoop P evs c).env.dispatched = c.env.dispatched ++ evs ∧
        (c.meta.clip_in.vidp = true → (pollLoop P evs c).meta.clip_in = c.meta.clip_in) := by
  intro evs
  induction evs with
  | nil =>
    intro c _
    simp [pollLoop, Ctx.fixed, Ctx.clip, Env.call]
  | cons ev rest ih =>
    intro c hm
    unfold pollLoop
    have hd := eventDispatch_fixed P ev
      { c with prim := { c.prim with inq := rest },
               env := c.env.call (Call.poll SegName.prim) } wnd hm
    have hfix := hd.1
    simp only [Ctx.fixed, Prod.mk.injEq] at hfix
    have h := ih _ (by rw [hfix.1]; exact hm)
    refine ⟨?_, ?_, ?_, ?_⟩
    · rw [h.1, hd.1]; rfl
    · rw [h.2.1, hd.2.1]; rfl
    · rw [h.2.2.1, hd.2.2.1]; simp [Env.call]
    · intro hv
      have h1 := hd.2.2.2 hv
      rw [h.2.2.2 (by rw [h1]; exact hv), h1]

theorem pendingLoop_frame (P : Platform) (wnd : SDL_Window) :
    ∀ (fuel i : Nat) (c : Ctx), c.meta.main = some wnd →
      (pendingLoop P fuel i c).fixed = c.fixed ∧ (pendingLoop P fuel i c).clip = c.clip ∧
        (c.meta.clip_in.vidp = true → (pendingLoop P fuel i c).meta.clip_in = c.meta.clip_in) := by
  intro fuel
  induction fuel with
  | zero =>
    intro i c _
    simp [pendingLoop]
  | succ fuel ih =>
    intro i c hm
    unfold pendingLoop
    split
    · split
      · simp
      · next ev _ =>
        have hd := eventDispatch_fixed P ev c wnd hm
        have hc := closeDescriptor_fixed P i (eventDispatch P ev c)
        have hfix : (closeDescriptor P i (eventDispatch P ev c)).fixed = c.fixed := by
          rw [hc.1, hd.1]
        have hfix2 := hfix
        simp only [Ctx.fixed, Prod.mk.injEq] at hfix2
        have h := ih (i + 1) (closeDescriptor P i (eventDispatch P ev c))
          (by rw [hfix2.1, hm])
        refine ⟨by rw [h.1, hfix], by rw [h.2.1, hc.2.1, hd.2.1], ?_⟩
        intro hv
        have h2 : (closeDescriptor P i (eventDispatch P ev c)).meta.clip_in = c.meta.clip_in := by
          rw [hc.2.2.2.1, hd.2.2.2 hv]
        rw [h.2.2 (by rw [h2]; exact hv), h2]
    · simp

theorem flushMouse_fixed (c : Ctx) :
    (flushMouse c).fixed = c.fixed ∧ (flushMouse c).clip = c.clip ∧
      (flushMouse c).env.dispatched = c.env.dispatched ∧
      (flushMouse c).meta.clip_in = c.meta.clip_in := by
  unfold flushMouse
  split <;> simp [Ctx.fixed, Ctx.clip, Env.send]

theorem clipMessage_fixed (ev : arcan_event) (m : Arcan_SDL_Meta) :
    (clipMessage ev m).main = m.main ∧ (clipMessage ev m).pqueue = m.pqueue ∧
      (clipMessage ev m).pqueue_sz = m.pqueue_sz ∧ (clipMessage ev m).clip_in = m.clip_in := by
  unfold clipMessage
  split
  · split <;> split <;> simp
  · simp

theorem clipLoop_fixed :
    ∀ (evs : List arcan_event) (c : Ctx),
      (clipLoop evs c).fixed = c.fixed ∧ (clipLoop evs c).env.dispatched = c.env.dispatched ∧
        (clipLoop evs c).env.sink = c.env.sink := by
  intro evs
  induction evs with
  | nil =>
    intro c
    simp [clipLoop, Ctx.fixed, Env.call]
  | cons ev rest ih =>
    intro c
    unfold clipLoop
    have h := ih
      { c with
        meta := clipMessage ev { c.meta with clip_in := { c.meta.clip_in with inq := rest } }
        env := c.env.call (Call.poll SegName.clip_in) }
    have hc := clipMessage_fixed ev { c.meta with clip_in := { c.meta.clip_in with inq := rest } }
    refine ⟨?_, ?_, ?_⟩
    · rw [h.1]
      simp [Ctx.fixed, hc.1, hc.2.1, hc.2.2.1]
    · rw [h.2.1]
      simp [Env.call]
    · rw [h.2.2]
      simp [Env.call]

/-! ## Clipboard reassembly -/

theorem clipLoop_chunks :
    ∀ (init : List arcan_event) (last : arcan_event) (c : Ctx),
      (∀ e ∈ init, e.category = EventCategory.target ∧ e.tgt.kind = TargetCommand.MESSAGE ∧
        e.tgt.iv 0 ≠ 0) →
      last.category = EventCategory.target → last.tgt.kind = TargetCommand.MESSAGE →
      last.tgt.iv 0 = 0 →
      (clipLoop (init ++ [last]) c).clip =
        (none, some (c.meta.clip_tmp.getD "" ++ payloads (init ++ [last]))) := by
  intro init
  induction init with
  | nil =>
    intro last c _ h1 h2 h3
    cases ht : c.meta.clip_tmp <;>
      simp [clipLoop, clipMessage, Ctx.clip, h1, h2, h3, ht, payloads, Env.call]
  | cons e rest ih =>
    intro last c hi h1 h2 h3
    have he := hi e (List.mem_cons_self e rest)
    have hr : ∀ x ∈ rest, x.category = EventCategory.target ∧
        x.tgt.kind = TargetCommand.MESSAGE ∧ x.tgt.iv 0 ≠ 0 :=
      fun x hx => hi x (List.mem_cons_of_mem e hx)
    rw [List.cons_append]
    unfold clipLoop
    rw [ih last _ hr h1 h2 h3]
    cases ht : c.meta.clip_tmp <;>
      simp [clipMessage, he.1, he.2.1, he.2.2, ht, payloads, String.append_assoc]


/-! ## The phases of the event pump -/

theorem replayPending_frame (P : Platform) (wnd : SDL_Window) (c : Ctx)
    (hm : c.meta.main = some wnd) :
    (replayPending P c).meta.main = some wnd ∧ (replayPending P c).prim.addr = c.prim.addr ∧
      (replayPending P c).meta.pqueue = none ∧ (replayPending P c).clip = c.clip ∧
      (c.meta.clip_in.vidp = true → (replayPending P c).meta.clip_in = c.meta.clip_in) := by
  unfold replayPending
  split
  · next h => exact ⟨hm, rfl, h, rfl, fun _ => rfl⟩
  · have h := pendingLoop_frame P wnd c.meta.pqueue_sz.toNat 0 c hm
    have hf := h.1
    simp only [Ctx.fixed, Prod.mk.injEq] at hf
    have hc := h.2.1
    simp only [Ctx.clip, Prod.mk.injEq] at hc
    refine ⟨by simp [hf.1, hm], by simp [hf.2.2.2], rfl, ?_, ?_⟩
    · simp [Ctx.clip, hc.1, hc.2]
    · intro hv
      simp [h.2.2 hv]

theorem replayPending_dispatched (P : Platform) (wnd : SDL_Window) (c : Ctx)
    (q : List arcan_event) (hm : c.meta.main = some wnd) (hq : c.meta.pqueue = some q)
    (hsz : c.meta.pqueue_sz = q.length) :
    (replayPending P c).env.dispatched = c.env.dispatched ++ q ∧
      (replayPending P c).meta.pqueue_sz = 0 := by
  unfold replayPending
  simp only [hq]
  have h := pendingLoop_fixed P wnd q q.length 0 c hm hq hsz (by omega)
  simp [hsz, h.2.2.1]

theorem drainPrimary_frame (P : Platform) (wnd : SDL_Window) (c : Ctx)
    (hm : c.meta.main = some wnd) :
    (drainPrimary P c).fixed = c.fixed ∧ (drainPrimary P c).clip = c.clip ∧
      (drainPrimary P c).env.dispatched = c.env.dispatched ++ available c.prim ∧
      (c.meta.clip_in.vidp = true → (drainPrimary P c).meta.clip_in = c.meta.clip_in) := by
  unfold drainPrimary
  simp only [hm, Option.isSome_some, if_true]
  have h := pollLoop_fixed P wnd (available c.prim) c hm
  have hf := flushMouse_fixed (pollLoop P (available c.prim) c)
  refine ⟨by rw [hf.1, h.1], by rw [hf.2.1, h.2.1], by rw [hf.2.2.1, h.2.2.1], ?_⟩
  intro hv
  rw [hf.2.2.2, h.2.2.2 hv]

theorem resize_inq (n : SegName) (s : Segment) (w h : Int) (env : Env) :
    (arcan_shmif_resize n s w h env).2.1.inq = s.inq := by
  unfold arcan_shmif_resize
  simp only [Env.call]
  split
  · simp
  · split <;> simp

theorem process_target_inq (P : Platform) (wnd : SDL_Window) (ev : arcan_tgtevent) (c : Ctx) :
    (process_target P wnd ev c).prim.inq = c.prim.inq := by
  unfold process_target
  split
  · simp
  · simp
  · simp
  · simp
  · simp
  · simp
  · simp
  · simp only [outputhint_prim]
    split
    · split
      · split <;> simp [resize_inq]
      · simp
    · simp
  · simp [outputhint_prim]
  · split
    · split <;> simp
    · split
      · split <;> simp
      · simp
  · simp
  · simp

theorem eventDispatch_inq (P : Platform) (ev : arcan_event) (c : Ctx) :
    (eventDispatch P ev c).prim.inq = c.prim.inq := by
  unfold eventDispatch
  split
  · rfl
  · split
    · rw [(process_input_fixed P ev _).2.2.2.2]
    · split
      · rw [process_target_inq]
      · rfl

theorem closeDescriptor_prim (P : Platform) (i : Nat) (c : Ctx) :
    (closeDescriptor P i c).prim = c.prim := by
  unfold closeDescriptor
  split
  · rfl
  · split <;> rfl

theorem pendingLoop_inq (P : Platform) :
    ∀ (fuel i : Nat) (c : Ctx), (pendingLoop P fuel i c).prim.inq = c.prim.inq := by
  intro fuel
  induction fuel with
  | zero =>
    intro i c
    simp [pendingLoop]
  | succ fuel ih =>
    intro i c
    unfold pendingLoop
    split
    · split
      · rfl
      · rw [ih, closeDescriptor_prim, eventDispatch_inq]
    · rfl

theorem replayPending_inq (P : Platform) (c : Ctx) :
    (replayPending P c).prim.inq = c.prim.inq := by
  unfold replayPending
  split
  · rfl
  · simp [pendingLoop_inq]

theorem pump_eq (P : Platform) (prim : Segment) (m : Arcan_SDL_Meta) (env : Env)
    (wnd : SDL_Window) (hm : m.main = some wnd) :
    Arcan_PumpEvents P { primary := some prim, user := some m, env := env } =
      some (pumpLive P (replayPending P { prim := prim, meta := m, env := env })).toWorld := by
  simp [Arcan_PumpEvents, hm]

theorem pumpLive_run (P : Platform) (wnd : SDL_Window) (c : Ctx)
    (hm : c.meta.main = some wnd) :
    (pumpLive P c).fixed = c.fixed ∧
      (pumpLive P c).env.dispatched = c.env.dispatched ++ available c.prim := by
  have hd := drainPrimary_frame P wnd { c with env := c.env.call Call.LockMutex } hm
  have hk := clipLoop_fixed
    (available (drainPrimary P { c with env := c.env.call Call.LockMutex }).meta.clip_in)
    (drainPrimary P { c with env := c.env.call Call.LockMutex })
  constructor
  · have h := hk.1.trans hd.1
    simpa [pumpLive, drainClipboard, Ctx.fixed] using h
  · have h := hk.2.1.trans hd.2.2.1
    simpa [pumpLive, drainClipboard, Env.call] using h

theorem replayOne_fixed (P : Platform) (ev : arcan_event) (c : Ctx) (wnd : SDL_Window)
    (hm : c.meta.main = some wnd) : (replayOne P c ev).fixed = c.fixed := by
  unfold replayOne
  split
  · exact (eventDispatch_fixed P ev c wnd hm).1
  · exact (eventDispatch_fixed P ev c wnd hm).1

theorem closeDescriptor_replayOne (P : Platform) (wnd : SDL_Window) (q : List arcan_event)
    (i : Nat) (c : Ctx) (hm : c.meta.main = some wnd) (hq : c.meta.pqueue = some q)
    (hi : i < q.length) :
    closeDescriptor P i (eventDispatch P q[i] c) = replayOne P c q[i] := by
  have hf := (eventDispatch_fixed P q[i] c wnd hm).1
  simp only [Ctx.fixed, Prod.mk.injEq] at hf
  have hget : (eventDispatch P q[i] c).meta.pqueue.bind (fun l => l[i]?) = some q[i] := by
    simp [hf.2.1, hq, List.getElem?_eq_getElem hi]
  unfold closeDescriptor replayOne
  simp only [hget]

theorem pendingLoop_fold (P : Platform) (wnd : SDL_Window) (q : List arcan_event) :
    ∀ (fuel i : Nat) (c : Ctx), c.meta.main = some wnd → c.meta.pqueue = some q →
      c.meta.pqueue_sz = q.length → i + fuel = q.length →
      pendingLoop P fuel i c = (q.drop i).foldl (replayOne P) c := by
  intro fuel
  induction fuel with
  | zero =>
    intro i c _ _ _ hi
    have : q.length ≤ i := by omega
    simp [pendingLoop, List.drop_eq_nil_of_le this]
  | succ fuel ih =>
    intro i c hm hq hsz hi
    have hlt : i < q.length := by omega
    have hcond : (i : Int) < c.meta.pqueue_sz ∧ c.meta.pqueue_sz > 0 := by
      rw [hsz]; constructor <;> omega
    have hget : c.meta.pqueue.bind (fun q => q[i]?) = some q[i] := by
      simp [hq, List.getElem?_eq_getElem hlt]
    have hf := replayOne_fixed P q[i] c wnd hm
    simp only [Ctx.fixed, Prod.mk.injEq] at hf
    unfold pendingLoop
    rw [if_pos hcond]
    simp only [hget]
    rw [closeDescriptor_replayOne P wnd q i c hm hq hlt,
      ih (i + 1) (replayOne P c q[i]) (by rw [hf.1, hm]) (by rw [hf.2.1, hq])
        (by rw [hf.2.2.1, hsz]) (by omega),
      List.drop_eq_getElem_cons hlt, List.foldl_cons]

theorem replayPending_none (P : Platform) (c : Ctx) (h : c.meta.pqueue = none) :
    replayPending P c = c := by
  unfold replayPending
  split
  · rfl
  · next q hq => rw [h] at hq; cases hq

theorem replayPending_fold (P : Platform) (wnd : SDL_Window) (c : Ctx) (q : List arcan_event)
    (hm : c.meta.main = some wnd) (hq : c.meta.pqueue = some q)
    (hsz : c.meta.pqueue_sz = q.length) :
    replayPending P c = (q.foldl (replayOne P) c).clearPending := by
  unfold replayPending
  simp only [hq]
  have h := pendingLoop_fold P wnd q q.length 0 c hm hq hsz (by omega)
  simp only [List.drop_zero] at h
  simp [hsz, h, Ctx.clearPending]

/-! ## Pending-queue replay -/

/-- C2. With a main window bound and a pending queue `q` (an array of `q.length` events, the
size field saying so), one `Arcan_PumpEvents` call returns, and the state it returns is the one
obtained by running the loop body (dispatch through `eventDispatch`, then close of a carried
descriptor) on `q[0], ..., q[n-1]` in that order, each once, then clearing the queue (pointer
null, size `0`), and only then running the locked part of the pump on the live events: so the
handlers have seen exactly `q` followed by the live events of the primary segment. The next
call, whatever events `live` have arrived in between, runs the locked part alone from the state
the first call left, and the handlers see exactly `live`, none of `q` again. -/
theorem pending_replay_once (P : Platform) (prim : Segment) (m : Arcan_SDL_Meta) (env : Env)
    (wnd : SDL_Window) (q : List arcan_event) (hm : m.main = some wnd)
    (hq : m.pqueue = some q) (hsz : m.pqueue_sz = q.length) :
    ∃ c1 : Ctx,
      c1 = pumpLive P
        (q.foldl (replayOne P) { prim := prim, meta := m, env := env }).clearPending ∧
      Arcan_PumpEvents P { primary := some prim, user := some m, env := env } =
        some c1.toWorld ∧
      c1.env.dispatched = env.dispatched ++ q ++ available prim ∧
      c1.meta.pqueue = none ∧ c1.meta.pqueue_sz = 0 ∧
      ∀ live : List arcan_event,
        Arcan_PumpEvents P (c1.toWorld.arrive live) =
            some (pumpLive P { c1 with prim := { c1.prim with inq := live } }).toWorld ∧
          (pumpLive P { c1 with prim := { c1.prim with inq := live } }).env.dispatched =
            env.dispatched ++ q ++ available prim ++ (if prim.addr = true then live else []) := by
  have hfold := replayPending_fold P wnd { prim := prim, meta := m, env := env } q hm hq hsz
  have hr := replayPending_frame P wnd { prim := prim, meta := m, env := env } hm
  have hi := replayPending_inq P { prim := prim, meta := m, env := env }
  have hd := replayPending_dispatched P wnd { prim := prim, meta := m, env := env } q hm hq hsz
  have hl := pumpLive_run P wnd (replayPending P { prim := prim, meta := m, env := env }) hr.1
  have hav : available (replayPending P { prim := prim, meta := m, env := env }).prim =
      available prim := by
    simp only [available, hr.2.1, hi]
  have hfix := hl.1
  simp only [Ctx.fixed, Prod.mk.injEq] at hfix
  rw [← hfold]
  have hmain : (pumpLive P (replayPending P { prim := prim, meta := m, env := env })).meta.main =
      some wnd := by rw [hfix.1, hr.1]
  have hpq : (pumpLive P (replayPending P { prim := prim, meta := m, env := env })).meta.pqueue =
      none := by rw [hfix.2.1, hr.2.2.1]
  have hdisp : (pumpLive P (replayPending P { prim := prim, meta := m, env := env })).env.dispatched
      = env.dispatched ++ q ++ available prim := by rw [hl.2, hd.1, hav]
  refine ⟨_, rfl, pump_eq P prim m env wnd hm, hdisp, hpq, by rw [hfix.2.2.1, hd.2], ?_⟩
  intro live
  have hrep : replayPending P
      { pumpLive P (replayPending P { prim := prim, meta := m, env := env }) with
        prim := { (pumpLive P (replayPending P { prim := prim, meta := m, env := env })).prim with
                  inq := live } } =
      { pumpLive P (replayPending P { prim := prim, meta := m, env := env }) with
        prim := { (pumpLive P (replayPending P { prim := prim, meta := m, env := env })).prim with
                  inq := live } } :=
    replayPending_none P _ hpq
  constructor
  · have h := pump_eq P
      { (pumpLive P (replayPending P { prim := prim, meta := m, env := env })).prim with
        inq := live }
      (pumpLive P (replayPending P { prim := prim, meta := m, env := env })).meta
      (pumpLive P (replayPending P { prim := prim, meta := m, env := env })).env wnd hmain
    rw [hrep] at h
    exact h
  · have h := (pumpLive_run P wnd
      { pumpLive P (replayPending P { prim := prim, meta := m, env := env }) with
        prim := { (pumpLive P (replayPending P { prim := prim, meta := m, env := env })).prim with
                  inq := live } } hmain).2
    rw [h, hdisp]
    simp [available, hfix.2.2.2, hr.2.1]

/-- C2, at a queue holding a key press, an `EXIT` command and a `BCHUNK_IN` command carrying
descriptor `7`, with one live key press: the handlers see the three pending events and then the
live one, the sink receives the key, the window close and the live key in that order, the
descriptor is closed before the lock is taken, and the queue is empty afterwards. -/
theorem pending_replay_once_witness :
    (∃ c1 : Ctx,
      Arcan_PumpEvents Platform.plain
          { primary := some { addr := true, inq := [keyPress 3] }
            user := some { main := some {}
                           pqueue := some [keyPress 1, targetCommand TargetCommand.EXIT 0,
                                           targetCommand TargetCommand.BCHUNK_IN 7]
                           pqueue_sz := 3 } } = some c1.toWorld ∧
        c1.env.dispatched =
          [keyPress 1, targetCommand TargetCommand.EXIT 0,
            targetCommand TargetCommand.BCHUNK_IN 7, keyPress 3] ∧
        c1.meta.pqueue = none ∧ c1.meta.pqueue_sz = 0) ∧
    (Arcan_PumpEvents Platform.plain
        { primary := some { addr := true, inq := [keyPress 3] }
          user := some { main := some {}
                         pqueue := some [keyPress 1, targetCommand TargetCommand.EXIT 0,
                                         targetCommand TargetCommand.BCHUNK_IN 7]
                         pqueue_sz := 3 } }).map (fun w => (w.env.sink, w.env.calls)) =
      some ([SinkEvent.KeyboardKey true 1,
              SinkEvent.WindowEvent WindowEventID.SDL_WINDOWEVENT_CLOSE 0 0,
              SinkEvent.KeyboardKey true 3],
            [Call.close 7, Call.LockMutex, Call.poll SegName.prim, Call.poll SegName.prim,
              Call.poll SegName.clip_in, Call.UnlockMutex]) := by
  refine ⟨?_, by decide⟩
  obtain ⟨c1, -, h2, h3, h4, h5, -⟩ :=
    pending_replay_once Platform.plain { addr := true, inq := [keyPress 3] }
      { main := some {}
        pqueue := some [keyPress 1, targetCommand TargetCommand.EXIT 0,
                        targetCommand TargetCommand.BCHUNK_IN 7]
        pqueue_sz := 3 } {} {}
      [keyPress 1, targetCommand TargetCommand.EXIT 0, targetCommand TargetCommand.BCHUNK_IN 7]
      rfl rfl rfl
  exact ⟨c1, h2, h3, h4, h5⟩

/-- C3. With a main window and a clipboard-in segment bound, an empty accumulator, and the
clipboard-in segment holding `MESSAGE` events `m1..mk` of which all but the last carry a
non-zero continuation flag and the last carries `ioevs[0] = 0`: `Arcan_PumpEvents` returns,
and after it the last completed clipboard text is the concatenation of the payloads of `m1..mk` in order, and
the accumulator is empty again. -/
theorem clipboard_reassembly (P : Platform) (prim : Segment) (m : Arcan_SDL_Meta) (env : Env)
    (wnd : SDL_Window) (init : List arcan_event) (last : arcan_event)
    (hm : m.main = some wnd) (ha : m.clip_in.addr = true) (hv : m.clip_in.vidp = true)
    (hq : m.clip_in.inq = init ++ [last]) (hacc : m.clip_tmp = none)
    (hinit : ∀ e ∈ init, e.category = EventCategory.target ∧
      e.tgt.kind = TargetCommand.MESSAGE ∧ e.tgt.iv 0 ≠ 0)
    (h1 : last.category = EventCategory.target) (h2 : last.tgt.kind = TargetCommand.MESSAGE)
    (h3 : last.tgt.iv 0 = 0) :
    (Arcan_PumpEvents P { primary := some prim, user := some m, env := env }).bind
        (fun w1 => w1.user.map (fun m1 => (m1.clip_tmp, m1.clip_last))) =
      some (none, some (payloads (init ++ [last]))) := by
  have hr := replayPending_frame P wnd { prim := prim, meta := m, env := env } hm
  have hd := drainPrimary_frame P wnd
    { replayPending P { prim := prim, meta := m, env := env } with
      env := (replayPending P { prim := prim, meta := m, env := env }).env.call Call.LockMutex }
    hr.1
  have hin : (drainPrimary P
      { replayPending P { prim := prim, meta := m, env := env } with
        env := (replayPending P { prim := prim, meta := m, env := env }).env.call
          Call.LockMutex }).meta.clip_in = m.clip_in := by
    rw [hd.2.2.2 (by simp [hr.2.2.2.2 hv, hv])]
    exact hr.2.2.2.2 hv
  have hclip := hd.2.1
  simp only [Ctx.clip, Prod.mk.injEq] at hclip
  have hclip0 := hr.2.2.2.1
  simp only [Ctx.clip, Prod.mk.injEq] at hclip0
  have hk := clipLoop_chunks init last (drainPrimary P
      { replayPending P { prim := prim, meta := m, env := env } with
        env := (replayPending P { prim := prim, meta := m, env := env }).env.call
          Call.LockMutex }) hinit h1 h2 h3
  rw [hclip.1, hclip0.1, hacc] at hk
  simp only [Ctx.clip, Prod.mk.injEq] at hk
  simp [Arcan_PumpEvents, hm, pumpLive, Ctx.toWorld, drainClipboard, hin, available, ha, hq,
    hk.1, hk.2]

/-- C3, at the chunks "AB", "CD" and an empty end-of-stream chunk: the completed text is
"ABCD". -/
theorem clipboard_reassembly_witness :
    (Arcan_PumpEvents Platform.plain
        { primary := some { addr := true }
          user := some { main := some {}
                         clip_in := { addr := true, vidp := true
                                      inq := [message "AB" 1, message "CD" 1, message "" 0] } }
        }).bind (fun w1 => w1.user.map (fun m1 => (m1.clip_tmp, m1.clip_last))) =
      some (none, some "ABCD") :=
  clipboard_reassembly Platform.plain { addr := true }
    { main := some {}
      clip_in := { addr := true, vidp := true
                   inq := [message "AB" 1, message "CD" 1, message "" 0] } }
    {} {} [message "AB" 1, message "CD" 1] (message "" 0) rfl rfl rfl rfl rfl
    (by decide) rfl rfl rfl


/-! ## Motion events -/

theorem eventDispatch_analog (P : Platform) (wnd : SDL_Window) (ev : arcan_event) (c : Ctx)
    (hm : c.meta.main = some wnd) (h1 : ev.category = EventCategory.input)
    (h2 : ev.inp.devkind = DevKind.MOUSE) (h3 : ev.inp.datatype = DataType.ANALOG) :
    (eventDispatch P ev c).env.sink.length = c.env.sink.length + 1 ∧
      (eventDispatch P ev c).meta.dirty_mouse = c.meta.dirty_mouse := by
  simp [eventDispatch, hm, h1, process_input, h2, process_mouse, h3, Env.send]

theorem pollLoop_analog (P : Platform) (wnd : SDL_Window) :
    ∀ (evs : List arcan_event) (c : Ctx), c.meta.main = some wnd →
      (∀ e ∈ evs, e.category = EventCategory.input ∧ e.inp.devkind = DevKind.MOUSE ∧
        e.inp.datatype = DataType.ANALOG) →
      (pollLoop P evs c).env.sink.length = c.env.sink.length + evs.length ∧
        (pollLoop P evs c).meta.dirty_mouse = c.meta.dirty_mouse := by
  intro evs
  induction evs with
  | nil =>
    intro c _ _
    simp [pollLoop, Env.call]
  | cons ev rest ih =>
    intro c hm hall
    have he := hall ev (List.mem_cons_self ev rest)
    unfold pollLoop
    have hd := eventDispatch_analog P wnd ev
      { c with prim := { c.prim with inq := rest },
               env := c.env.call (Call.poll SegName.prim) } hm he.1 he.2.1 he.2.2
    have hf := (eventDispatch_fixed P ev
      { c with prim := { c.prim with inq := rest },
               env := c.env.call (Call.poll SegName.prim) } wnd hm).1
    simp only [Ctx.fixed, Prod.mk.injEq] at hf
    have h := ih _ (by rw [hf.1]; exact hm) (fun x hx => hall x (List.mem_cons_of_mem ev hx))
    rw [h.1, h.2, hd.1, hd.2]
    simp [Env.call]
    omega

/-- With a main window bound, no pending queue and the coalescing flag clear,
`Arcan_PumpEvents` forwards one event per analog mouse sample drained from the primary segment:
`n` samples give `n` forwarded events. -/
theorem pump_forwards_every_sample (P : Platform) (prim : Segment) (m : Arcan_SDL_Meta)
    (env : Env) (wnd : SDL_Window) (hm : m.main = some wnd) (hq : m.pqueue = none)
    (hd : m.dirty_mouse = false) (ha : prim.addr = true)
    (hall : ∀ e ∈ prim.inq, e.category = EventCategory.input ∧ e.inp.devkind = DevKind.MOUSE ∧
      e.inp.datatype = DataType.ANALOG) :
    (Arcan_PumpEvents P { primary := some prim, user := some m, env := env }).map
        (fun w => w.env.sink.length) =
      some (env.sink.length + prim.inq.length) := by
  have hrep : replayPending P { prim := prim, meta := m, env := env } =
      { prim := prim, meta := m, env := env } :=
    replayPending_none P _ hq
  have hav : available prim = prim.inq := by simp [available, ha]
  have hp := pollLoop_analog P wnd prim.inq
    { prim := prim, meta := m, env := env.call Call.LockMutex } hm hall
  have hflush : flushMouse (pollLoop P prim.inq
        { prim := prim, meta := m, env := env.call Call.LockMutex }) =
      pollLoop P prim.inq { prim := prim, meta := m, env := env.call Call.LockMutex } := by
    simp [flushMouse, hp.2, hd]
  have hdrain : drainPrimary P { prim := prim, meta := m, env := env.call Call.LockMutex } =
      pollLoop P prim.inq { prim := prim, meta := m, env := env.call Call.LockMutex } := by
    simp only [drainPrimary, hm, Option.isSome_some, if_true, hav, hflush]
  have hlive : (pumpLive P { prim := prim, meta := m, env := env }).env.sink =
      (drainClipboard (pollLoop P prim.inq
        { prim := prim, meta := m, env := env.call Call.LockMutex })).env.sink := by
    simp only [pumpLive]
    rw [hdrain]
    rfl
  rw [pump_eq P prim m env wnd hm, hrep, Option.map_some', Ctx.toWorld, hlive, drainClipboard,
    (clipLoop_fixed _ _).2.2, hp.1]
  rfl

/-- The count of forwarded events at two analog samples. -/
theorem pump_forwards_every_sample_two :
    (Arcan_PumpEvents Platform.plain
        { primary := some { addr := true, inq := [analog 5 0, analog 8 0] }
          user := some { main := some {} } }).map (fun w => w.env.sink.length) = some 2 :=
  pump_forwards_every_sample Platform.plain { addr := true, inq := [analog 5 0, analog 8 0] }
    { main := some {} } {} {} rfl rfl rfl rfl (by decide)

/-- C1 fails on the code. With a main window bound, no pending queue and the coalescing flag
clear, the `Arcan_PumpEvents` call that drains the two analog samples `(5, 0)` and `(8, 0)`
returns with the two forwarded as two motion events, one per sample, where the claim promises a single event
carrying `(8, 0)`. -/
theorem pump_two_samples_two_motions :
    (Arcan_PumpEvents Platform.plain
        { primary := some { addr := true, inq := [analog 5 0, analog 8 0] }
          user := some { main := some {} } }).map (fun w => w.env.sink) =
      some [SinkEvent.MouseMotion 0 0 5 0, SinkEvent.MouseMotion 0 0 8 0] := by
  decide


/-! ## Cursor synchronisation -/

theorem outputhint_disp (ev : arcan_tgtevent) (c : Ctx) :
    ((outputhint ev c).meta.disp_w, (outputhint ev c).meta.disp_h) =
      if ev.iv 0 ≠ 0 ∧ ev.iv 1 ≠ 0 then (ev.iv 0, ev.iv 1)
      else (c.meta.disp_w, c.meta.disp_h) := by
  unfold outputhint
  split <;> rfl

theorem displayhint_disp (P : Platform) (wnd : SDL_Window) (ev : arcan_tgtevent) (c : Ctx)
    (hk : ev.kind = TargetCommand.DISPLAYHINT) :
    ((process_target P wnd ev c).meta.disp_w, (process_target P wnd ev c).meta.disp_h) =
      if ev.iv 0 ≠ 0 ∧ ev.iv 1 ≠ 0 then (ev.iv 0, ev.iv 1)
      else (c.meta.disp_w, c.meta.disp_h) := by
  simp only [process_target, hk]
  rw [outputhint_disp]
  by_cases h : ev.iv 0 ≠ 0 ∧ ev.iv 1 ≠ 0
  · rw [if_pos h, if_pos h]
  · have h2 : ¬ ((ev.iv 0 ≠ 0 ∧ ev.iv 1 ≠ 0) ∧ (ev.iv 0 ≠ c.prim.w ∨ ev.iv 1 ≠ c.prim.h)) :=
      fun hc => h hc.1
    rw [if_neg h, if_neg h2, if_neg h]

/-- C12. For every `DISPLAYHINT` event, whatever the window flags, the segment size and the
answer of the transport to a resize, `process_target` leaves the advisory display width and
height (`disp_w`, `disp_h`) exactly as it does for an `OUTPUTHINT` event carrying the same two
values; and an `OUTPUTHINT` event changes neither the outside world (no event reaches the sink,
no transport call such as a resize is made) nor the primary segment. -/
theorem displayhint_as_outputhint (P : Platform) (wnd : SDL_Window) (ev ev2 : arcan_tgtevent)
    (c : Ctx) (hk : ev.kind = TargetCommand.DISPLAYHINT)
    (hk2 : ev2.kind = TargetCommand.OUTPUTHINT) (h0 : ev2.iv 0 = ev.iv 0)
    (h1 : ev2.iv 1 = ev.iv 1) :
    ((process_target P wnd ev c).meta.disp_w, (process_target P wnd ev c).meta.disp_h) =
        ((process_target P wnd ev2 c).meta.disp_w, (process_target P wnd ev2 c).meta.disp_h) ∧
      (process_target P wnd ev2 c).env = c.env ∧
      (process_target P wnd ev2 c).prim = c.prim := by
  refine ⟨?_, ?_, ?_⟩
  · rw [displayhint_disp P wnd ev c hk]
    simp only [process_target, hk2]
    rw [outputhint_disp, h0, h1]
  · simp only [process_target, hk2, outputhint_env]
  · simp only [process_target, hk2, outputhint_prim]

/-- C12, at `DISPLAYHINT(800, 600)` on a resizable window over a 640x480 segment whose resize
the transport refuses, against `OUTPUTHINT(800, 600)`: both record `(800, 600)`. -/
theorem displayhint_as_outputhint_witness :
    ((process_target Platform.plain { resizable := true } (displayhint 800 600)
          { prim := { addr := true, vidp := true, w := 640, h := 480 } }).meta.disp_w,
      (process_target Platform.plain { resizable := true } (displayhint 800 600)
          { prim := { addr := true, vidp := true, w := 640, h := 480 } }).meta.disp_h) =
      ((process_target Platform.plain { resizable := true } (outputhintEvent 800 600)
          { prim := { addr := true, vidp := true, w := 640, h := 480 } }).meta.disp_w,
       (process_target Platform.plain { resizable := true } (outputhintEvent 800 600)
          { prim := { addr := true, vidp := true, w := 640, h := 480 } }).meta.disp_h) ∧
    ((process_target Platform.plain { resizable := true } (displayhint 800 600)
          { prim := { addr := true, vidp := true, w := 640, h := 480 } }).meta.disp_w,
      (process_target Platform.plain { resizable := true } (displayhint 800 600)
          { prim := { addr := true, vidp := true, w := 640, h := 480 } }).meta.disp_h) =
      (800, 600) :=
  ⟨(displayhint_as_outputhint Platform.plain { resizable := true } (displayhint 800 600)
      (outputhintEvent 800 600) { prim := { addr := true, vidp := true, w := 640, h := 480 } }
      rfl rfl rfl rfl).1, by decide⟩

end Arcan
